import Mathlib

/-!
Shallow embedding of the `ml-server` component of the saas-iam-backend
repository (files `main.py`, `ml_service.py`, `data_service.py`,
`data Models in models.py`, `auth.py`), together with theorems settling the
frozen claims about it.

Modelling conventions:
* Python strings are Lean `String`; numeric cell values are `ℚ` (the source
  computes in floating point; rational numbers are the exact idealisation).
* The filesystem used by the artifact store is an association list from path
  strings to file payloads; `os.remove` succeeds in the model (the
  OS-error branch of the delete handlers returns `false` in the source and is
  unreachable in a pure model).
* `datetime.now().isoformat()` and `uuid.uuid4()` are modelled as explicit
  string parameters (`clock`, fresh ids) supplied by the environment.
* Calls into pandas/sklearn whose outcome depends on data the embedding does
  not interpret (fitting an estimator, evaluating it, serialising with
  joblib) are modelled by an explicit `Oracle` that says whether each such
  call raises and what values it produces.
-/

set_option maxHeartbeats 1600000

namespace MLServer

/-- Error taxonomy of the service: `notFound` models HTTP 404 /
`FileNotFoundError`, `forbidden` models HTTP 403, `unauthorized` HTTP 401,
`valueError` the `ValueError`s raised by the services, and `internal`
unexpected failures surfaced as HTTP 500. -/
inductive ApiError where
  | notFound (msg : String)
  | forbidden (msg : String)
  | unauthorized (msg : String)
  | valueError (msg : String)
  | internal (msg : String)
deriving DecidableEq

/-- `ModelType` enum from models.py. -/
inductive ModelType where
  | classification
  | regression
  | clustering
  | custom
deriving DecidableEq

/-- String value of the enum member, as used in f-string interpolation. -/
def ModelType.toStr : ModelType → String
  | .classification => "classification"
  | .regression => "regression"
  | .clustering => "clustering"
  | .custom => "custom"

/-- `DataType` enum from models.py. -/
inductive DataType where
  | numeric
  | categorical
  | text
  | datetime
  | boolean
deriving DecidableEq

/-- `ColumnDefinition` pydantic model from models.py. -/
structure ColumnDefinition where
  name : String
  data_type : DataType
  is_target : Bool := false
  is_feature : Bool := true
  nullable : Bool := true
  description : Option String := none
deriving DecidableEq

/-- The `training_config: Dict[str, Any]` of a request is an opaque map that
the source only passes through verbatim (as estimator kwargs and into the
model metadata); it is modelled as an association list with opaque string
values. -/
abbrev TrainingConfig := List (String × String)

/-- `TrainingRequest` pydantic model from models.py. -/
structure TrainingRequest where
  tenant_id : String
  model_name : String
  model_type : ModelType
  dataset_id : Option String := none
  columns : List ColumnDefinition
  training_config : TrainingConfig := []
  description : Option String := none
  tags : List String := []
deriving DecidableEq

/-- `TrainingResponse` pydantic model from models.py. -/
structure TrainingResponse where
  model_id : String
  tenant_id : String
  status : String
  training_job_id : String
  message : String
deriving DecidableEq

/-- One entry of the in-memory `training_jobs` dict of main.py: the job
record created by the `/train` handler and mutated field-by-field by
`MLService.train_model_task`.  The Python dict initially lacks the
`model_id` key; `model_id = none` models that absent key (the
`TrainingStatus` pydantic model defaults it to `None`). -/
structure JobRecord where
  training_job_id : String
  tenant_id : String
  status : String
  start_time : String
  end_time : Option String
  progress : ℚ
  metrics : List (String × ℚ)
  error_message : Option String
  model_id : Option String
deriving DecidableEq

/-- Write `job["status"] = s`. -/
def JobRecord.setStatus (j : JobRecord) (s : String) : JobRecord :=
  { j with status := s }

/-- Write `job["progress"] = p`. -/
def JobRecord.setProgress (j : JobRecord) (p : ℚ) : JobRecord :=
  { j with progress := p }

/-- Write `job["end_time"] = t`. -/
def JobRecord.setEndTime (j : JobRecord) (t : String) : JobRecord :=
  { j with end_time := some t }

/-- Write `job["error_message"] = m`. -/
def JobRecord.setError (j : JobRecord) (m : String) : JobRecord :=
  { j with error_message := some m }

/-- Write `job["model_id"] = m`. -/
def JobRecord.setModelId (j : JobRecord) (m : String) : JobRecord :=
  { j with model_id := some m }

/-- Write `job["metrics"] = ms`. -/
def JobRecord.setMetrics (j : JobRecord) (ms : List (String × ℚ)) : JobRecord :=
  { j with metrics := ms }

/-- The process-wide `training_jobs` dict of main.py. -/
abbrev Jobs := List (String × JobRecord)

/-- Dict lookup `training_jobs[job_id]` / the `job_id in training_jobs` test. -/
def Jobs.find (jobs : Jobs) (jobId : String) : Option JobRecord :=
  match jobs with
  | [] => none
  | (k, v) :: rest => if k = jobId then some v else Jobs.find rest jobId

/-- Dict write `training_jobs[job_id] = j`. -/
def Jobs.insert (jobs : Jobs) (jobId : String) (j : JobRecord) : Jobs :=
  (jobId, j) :: jobs

/-! ## Tabular data

A loaded pandas DataFrame.  `pd.read_csv` without `parse_dates` yields only
numeric and object (string) columns, so a column holds either numeric or
categorical cells; a cell is `none` for NaN/missing.  Frames are rectangular
(all columns have the row count of the frame) and carry the default
`RangeIndex`, so row labels coincide with positions. -/

/-- One column of a DataFrame. -/
inductive ColData where
  | numeric (vals : List (Option ℚ))
  | categorical (vals : List (Option String))
deriving DecidableEq

/-- Number of cells in the column. -/
def ColData.size : ColData → ℕ
  | .numeric vals => vals.length
  | .categorical vals => vals.length

/-- Number of missing (NaN) cells, `df[col].isnull().sum()`. -/
def ColData.missing : ColData → ℕ
  | .numeric vals => vals.countP (·.isNone)
  | .categorical vals => vals.countP (·.isNone)

/-- Number of non-null cells, `df[col].count()`. -/
def ColData.countPresent : ColData → ℕ
  | .numeric vals => vals.countP (·.isSome)
  | .categorical vals => vals.countP (·.isSome)

/-- A loaded tabular dataset (named columns in order). -/
structure DataFrame where
  columns : List (String × ColData)
deriving DecidableEq

/-- Column labels, `df.columns`. -/
def DataFrame.colNames (df : DataFrame) : List String :=
  df.columns.map Prod.fst

/-- Row count `len(df)` (frames are rectangular, so the first column's
length is the frame's row count; an empty frame has zero rows). -/
def DataFrame.nrows (df : DataFrame) : ℕ :=
  match df.columns with
  | [] => 0
  | (_, c) :: _ => c.size

/-- Column count `len(df.columns)`. -/
def DataFrame.ncols (df : DataFrame) : ℕ :=
  df.columns.length

/-- The numeric columns, `df.select_dtypes(include=['number'])`. -/
def DataFrame.numericCols (df : DataFrame) : List (String × List (Option ℚ)) :=
  df.columns.filterMap fun p =>
    match p with
    | (nm, .numeric vals) => some (nm, vals)
    | _ => none

/-- The object/category columns, `df.select_dtypes(include=['object', 'category'])`. -/
def DataFrame.catCols (df : DataFrame) : List (String × List (Option String)) :=
  df.columns.filterMap fun p =>
    match p with
    | (nm, .categorical vals) => some (nm, vals)
    | _ => none

/-! ## Statistics helpers (pandas/numpy operations used by the services) -/

/-- The non-null values of a numeric column, `df[col].dropna()`. -/
def presentVals (vals : List (Option ℚ)) : List ℚ :=
  vals.filterMap id

/-- Ascending sort used by quantile computation. -/
def sortedVals (xs : List ℚ) : List ℚ :=
  xs.insertionSort (· ≤ ·)

/-- `Series.quantile(a/b)` with the default linear interpolation: with the
`n` non-null values sorted ascending, the quantile sits at position
`h = (a/b) * (n-1)`; the result interpolates linearly between the values at
`⌊h⌋` and `⌊h⌋ + 1`.  The index arithmetic is done exactly with natural
division (`i = a*(n-1) / b`, fractional part `(a*(n-1) mod b) / b`), which
agrees with the source's float computation for the quantiles it requests
(0.25, 0.5, 0.75 are exactly representable).  The source never calls this on
an all-null column; the value 0 for an empty list is an arbitrary total
default. -/
def quantileAB (xs : List ℚ) (a b : ℕ) : ℚ :=
  let s := sortedVals xs
  let n := s.length
  if n = 0 then 0
  else
    let num := a * (n - 1)
    let i := num / b
    let lo := s.getD i 0
    let hi := s.getD (min (i + 1) (n - 1)) 0
    lo + (((num % b : ℕ) : ℚ) / (b : ℚ)) * (hi - lo)

/-- Sum of a list of rationals. -/
def listSum (xs : List ℚ) : ℚ :=
  xs.foldl (· + ·) 0

/-- Arithmetic mean `Series.mean()` (callers guard against empty lists as the
source guards with `isnull().all()`). -/
def meanOf (xs : List ℚ) : ℚ :=
  listSum xs / (xs.length : ℚ)

/-- Central moment sum `Σ (x - mean)^k` over the non-null values. -/
def centralMomentSum (xs : List ℚ) (k : ℕ) : ℚ :=
  listSum (xs.map fun x => (x - meanOf xs) ^ k)

/-- Distinct values in order of first occurrence. -/
def firstOccs (l : List String) : List String :=
  l.foldl (fun acc v => if v ∈ acc then acc else acc ++ [v]) []

/-- `Series.value_counts()`: distinct non-null values with their counts,
sorted by descending count (ties keep first-occurrence order). -/
def valueCounts (vals : List (Option String)) : List (String × ℕ) :=
  let present := vals.filterMap id
  let pairs := (firstOccs present).map fun v => (v, present.count v)
  pairs.insertionSort fun p q => q.2 ≤ p.2

/-- `Series.mode()[0]`: the most frequent non-null value; `mode()` sorts the
modal values ascending, so ties resolve to the lexicographically least. -/
def modeTop (vals : List (Option String)) : Option String :=
  let vc := valueCounts vals
  match vc.head? with
  | none => none
  | some (_, f) => ((vc.filter fun p => p.2 = f).map Prod.fst).min?

/-- Pearson correlation entry of `numeric_df.corr().fillna(0)` for one pair
of numeric columns.  pandas computes `cov / (std_x * std_y)` over the rows
where both columns are non-null; that real value is irrational in general,
so the entry is stored in the exact sign-preserving encoding `r * |r|` (the
signed square of the correlation), which is rational and determines `r`.
The NaN entries zeroed by `fillna(0)` are exactly those whose variance
product vanishes and become `0` here too; the `round(3)` of the source is a
float-presentation detail not represented in this encoding. -/
def pearsonSignedSq (xs ys : List (Option ℚ)) : ℚ :=
  let paired := (xs.zip ys).filterMap fun p =>
    match p with
    | (some a, some b) => some (a, b)
    | _ => none
  let as := paired.map Prod.fst
  let bs := paired.map Prod.snd
  let covS := listSum (paired.map fun p => (p.1 - meanOf as) * (p.2 - meanOf bs))
  let vA := centralMomentSum as 2
  let vB := centralMomentSum bs 2
  if vA * vB = 0 then 0 else covS * |covS| / (vA * vB)

/-- Result of `np.histogram(values, bins=10)`: 10 counts and 11 evenly
spaced edges. -/
structure Histogram where
  counts : List ℕ
  bin_edges : List ℚ
deriving DecidableEq

/-- `np.histogram(xs, bins=10)` over the non-null values: edges are evenly
spaced from min to max (numpy widens a zero-width range by 0.5 on each
side); every bin is left-closed right-open except the last, which is
closed. -/
def histogram10 (xs : List ℚ) : Histogram :=
  let mn := xs.min?.getD 0
  let mx := xs.max?.getD 0
  let lo := if mn = mx then mn - (1 : ℚ) / 2 else mn
  let hi := if mn = mx then mx + (1 : ℚ) / 2 else mx
  let w := (hi - lo) / 10
  let edges := (List.range 11).map fun i => lo + (i : ℚ) * w
  let counts := (List.range 10).map fun i =>
    (xs.filter fun x =>
      decide (lo + (i : ℚ) * w ≤ x) &&
        (if i = 9 then decide (x ≤ hi) else decide (x < lo + ((i : ℚ) + 1) * w))).length
  ⟨counts, edges⟩

/-- Sample size and central-moment sums of orders 2, 3 and 4 of a numeric
column.  The skewness and kurtosis reported by `Series.skew()` /
`Series.kurtosis()` divide by powers of the sample standard deviation and
are irrational reals in general; the embedding stores the exact rational
data from which both are defined. -/
structure MomentData where
  n : ℕ
  m2 : ℚ
  m3 : ℚ
  m4 : ℚ
deriving DecidableEq

/-- Moment data of the non-null values of a column. -/
def momentsOf (xs : List ℚ) : MomentData :=
  ⟨xs.length, centralMomentSum xs 2, centralMomentSum xs 3, centralMomentSum xs 4⟩

/-- One entry of the `distributions` analysis output (lines 158-189 of
data_service.py). -/
inductive DistInfo where
  | numericDist (histogram : Histogram) (moments : MomentData)
  | categoricalDist (value_counts : List (String × ℕ)) (unique_count : ℕ)
deriving DecidableEq

/-! ## Per-column upload statistics (data_service.py lines 44-75) -/

/-- Statistics stored per column by `process_uploaded_dataset`.  The numpy
dtype string is abstracted to the kind of the column ("float64" / "object");
a statistic whose float value would be NaN — any statistic of an all-null
column, or the sample std of a single value — is `none`; the sample standard
deviation, irrational in general, is represented exactly by the sample
variance `var` (its square, with `ddof = 1`). -/
inductive ColStats where
  | numericStats (dtype : String) (count : ℕ) (mean : Option ℚ) (var : Option ℚ)
      (minV : Option ℚ) (q25 : Option ℚ) (q50 : Option ℚ) (q75 : Option ℚ)
      (maxV : Option ℚ) (missing : ℕ)
  | categoricalStats (dtype : String) (count : ℕ) (unique : ℕ) (top : Option String)
      (freq : Option ℕ) (top_values : List (String × ℕ)) (missing : ℕ)
deriving DecidableEq

/-- The statistics of one column. -/
def statsOf : ColData → ColStats
  | .numeric vals =>
    let present := presentVals vals
    let n := present.length
    .numericStats "float64" n
      (if present.isEmpty then none else some (meanOf present))
      (if present.isEmpty ∨ n < 2 then none
       else some (centralMomentSum present 2 / ((n : ℚ) - 1)))
      present.min?
      (if present.isEmpty then none else some (quantileAB present 1 4))
      (if present.isEmpty then none else some (quantileAB present 1 2))
      (if present.isEmpty then none else some (quantileAB present 3 4))
      present.max?
      (vals.countP (·.isNone))
  | .categorical vals =>
    let present := vals.filterMap id
    let vc := valueCounts vals
    .categoricalStats "object" (vals.countP (·.isSome)) (firstOccs present).length
      (modeTop vals) ((vc.head?).map Prod.snd) (vc.take 5) (vals.countP (·.isNone))

/-- `column_stats` mapping of the upload handler. -/
def computeColumnStats (df : DataFrame) : List (String × ColStats) :=
  df.columns.map fun p => (p.1, statsOf p.2)

/-! ## Persisted artifacts and the filesystem -/

/-- The sidecar metadata JSON written for a dataset (lines 78-91 of
data_service.py). -/
structure DatasetMetadata where
  dataset_id : String
  tenant_id : String
  filename : String
  upload_time : String
  rows : ℕ
  columns : ℕ
  column_names : List String
  column_stats : List (String × ColStats)
deriving DecidableEq

/-- The model metadata JSON written on training success (lines 145-167 of
ml_service.py).  `size_bytes` and `training_time_seconds` come from the
environment (`os.path.getsize`, wall-clock timing). -/
structure ModelMetadata where
  model_id : String
  tenant_id : String
  model_name : String
  model_type : ModelType
  description : Option String
  tags : List String
  created_at : String
  updated_at : String
  metrics : List (String × ℚ)
  feature_importance : Option (List (String × ℚ))
  status : String
  version : ℕ
  dataset_id : Option String
  columns : List ColumnDefinition
  training_config : TrainingConfig
  size_bytes : ℕ
  training_time_seconds : ℚ
deriving DecidableEq

/-- The sklearn Pipeline serialized by `joblib.dump`.  Its predictive
behaviour is external to the embedding; the artifact is identified by the
model type and the feature columns it was fit with. -/
structure SavedModel where
  model_type : ModelType
  feature_cols : List String
deriving DecidableEq

/-- Payload of one file on disk. -/
inductive FileData where
  | csv (df : DataFrame)
  | datasetMeta (m : DatasetMetadata)
  | joblib (m : SavedModel)
  | modelMeta (m : ModelMetadata)
deriving DecidableEq

/-- The filesystem visible to the services: association list from path to
payload, most recent write first. -/
abbrev FS := List (String × FileData)

/-- File lookup (read of the file at `p`, `none` when `os.path.exists` is
false). -/
def FS.find (fs : FS) (p : String) : Option FileData :=
  match fs with
  | [] => none
  | (k, v) :: rest => if k = p then some v else FS.find rest p

/-- `os.path.exists`. -/
def FS.pathExists (fs : FS) (p : String) : Bool :=
  (FS.find fs p).isSome

/-- `os.remove` (removes every binding of the path). -/
def FS.erase (fs : FS) (p : String) : FS :=
  fs.filter fun kv => decide (kv.1 ≠ p)

/-- A file write (`to_csv` / `json.dump` / `joblib.dump`): replaces any
previous content of the path. -/
def FS.insert (fs : FS) (p : String) (v : FileData) : FS :=
  (p, v) :: FS.erase fs p

/-- Path of a dataset's data file,
`os.path.join("datasets", f"TENANT_DATASET.csv")`. -/
def datasetPath (tenant_id dataset_id : String) : String :=
  "datasets/" ++ tenant_id ++ "_" ++ dataset_id ++ ".csv"

/-- Path of a dataset's metadata file. -/
def datasetMetaPath (tenant_id dataset_id : String) : String :=
  "datasets/" ++ tenant_id ++ "_" ++ dataset_id ++ "_metadata.json"

/-- Path of a model's serialized pipeline,
`os.path.join("models", f"TENANT_MODEL.joblib")`. -/
def modelPath (tenant_id model_id : String) : String :=
  "models/" ++ tenant_id ++ "_" ++ model_id ++ ".joblib"

/-- Path of a model's metadata file. -/
def modelMetaPath (tenant_id model_id : String) : String :=
  "models/" ++ tenant_id ++ "_" ++ model_id ++ "_metadata.json"

/-! ## Dataset analysis (data_service.py) -/

/-- A cell of a row record: numeric or string, possibly missing. -/
abbrev Cell := Option ℚ ⊕ Option String

/-- The cell of a column at row `i`. -/
def ColData.cellAt : ColData → ℕ → Cell
  | .numeric vals, i => Sum.inl (vals.getD i none)
  | .categorical vals, i => Sum.inr (vals.getD i none)

/-- Row `i` of the frame as a record (pandas `to_dict('records')` row). -/
def DataFrame.rowAt (df : DataFrame) (i : ℕ) : List (String × Cell) :=
  df.columns.map fun p => (p.1, p.2.cellAt i)

/-- `df.head(k).to_dict('records')`. -/
def DataFrame.headRecords (df : DataFrame) (k : ℕ) : List (List (String × Cell)) :=
  (List.range (min k df.nrows)).map df.rowAt

/-- `df.duplicated().sum()`: the number of rows equal to an earlier row
(pandas treats NaN cells as equal when comparing rows, as does `Cell`
equality), i.e. the row count minus the number of distinct rows. -/
def DataFrame.duplicateRowCount (df : DataFrame) : ℕ :=
  let rows := (List.range df.nrows).map df.rowAt
  rows.length - rows.dedup.length

/-- `df.memory_usage(deep=True).sum()`: an in-memory size estimate.  The
exact pandas byte accounting is machine-level; the embedding abstracts it to
a deterministic cell-count measure (no claim depends on its value). -/
def DataFrame.memoryUsage (df : DataFrame) : ℕ :=
  df.columns.foldl (fun acc p => acc + p.2.size) 0

/-- The `summary` analysis payload (lines 116-126 of data_service.py).
`datetime_columns` is always 0 for a frame loaded by `pd.read_csv` without
`parse_dates`, which yields no datetime columns. -/
structure SummaryStats where
  rows : ℕ
  columns : ℕ
  missing_values : ℕ
  duplicate_rows : ℕ
  numeric_columns : ℕ
  categorical_columns : ℕ
  datetime_columns : ℕ
  memory_usage : ℕ
deriving DecidableEq

/-- The `summary` operation. -/
def summaryOf (df : DataFrame) : SummaryStats :=
  ⟨df.nrows, df.ncols,
    df.columns.foldl (fun acc p => acc + p.2.missing) 0,
    df.duplicateRowCount,
    df.numericCols.length, df.catCols.length, 0,
    df.memoryUsage⟩

/-- The `correlation` operation over the numeric sub-frame:
`numeric_df.corr().fillna(0).to_dict()` (matrix entries in the encoding of
`pearsonSignedSq`). -/
def correlationDict (df : DataFrame) : List (String × List (String × ℚ)) :=
  df.numericCols.map fun p =>
    (p.1, df.numericCols.map fun q => (q.1, pearsonSignedSq q.2 p.2))

/-- The `missing_values` operation: per-column missing counts, keeping only
columns with a positive count (line 140 of data_service.py). -/
def missingValuesDict (df : DataFrame) : List (String × ℕ) :=
  df.columns.filterMap fun p =>
    let m := p.2.missing
    if m > 0 then some (p.1, m) else none

/-- Lower IQR fence `Q1 - 1.5 * IQR` of a numeric column (lines 147-150 of
data_service.py). -/
def lowerBound (vals : List (Option ℚ)) : ℚ :=
  let q1 := quantileAB (presentVals vals) 1 4
  let q3 := quantileAB (presentVals vals) 3 4
  q1 - (1.5 : ℚ) * (q3 - q1)

/-- Upper IQR fence `Q3 + 1.5 * IQR` of a numeric column. -/
def upperBound (vals : List (Option ℚ)) : ℚ :=
  let q1 := quantileAB (presentVals vals) 1 4
  let q3 := quantileAB (presentVals vals) 3 4
  q3 + (1.5 : ℚ) * (q3 - q1)

/-- Row indices whose value falls strictly outside the fences
(`df[(df[col] < lower_bound) | (df[col] > upper_bound)].index`; a NaN cell
satisfies neither comparison). -/
def outlierIndicesWith (lo hi : ℚ) (vals : List (Option ℚ)) : List ℕ :=
  (List.range vals.length).filter fun i =>
    match vals.get? i with
    | some (some x) => decide (x < lo ∨ x > hi)
    | _ => false

/-- The outlier indices of one numeric column. -/
def outlierIndices (vals : List (Option ℚ)) : List ℕ :=
  outlierIndicesWith (lowerBound vals) (upperBound vals) vals

/-- The `outliers` operation (lines 142-156 of data_service.py): for each
numeric column with at least one non-null value, its outlier indices, kept
only when non-empty. -/
def outliersOf (df : DataFrame) : List (String × List ℕ) :=
  df.numericCols.filterMap fun p =>
    if (presentVals p.2).isEmpty then none
    else
      let idxs := outlierIndices p.2
      if idxs.isEmpty then none else some (p.1, idxs)

/-- The `distributions` operation (lines 158-189 of data_service.py):
numeric columns first (histogram + moment data), then categorical columns
(top-10 value counts + unique count); columns with no non-null value are
skipped. -/
def distributionsOf (df : DataFrame) : List (String × DistInfo) :=
  (df.numericCols.filterMap fun p =>
    let present := presentVals p.2
    if present.isEmpty then none
    else some (p.1, DistInfo.numericDist (histogram10 present) (momentsOf present))) ++
  (df.catCols.filterMap fun p =>
    if (p.2.filterMap id).isEmpty then none
    else some (p.1, DistInfo.categoricalDist ((valueCounts p.2).take 10)
      (firstOccs (p.2.filterMap id)).length))

/-- `DatasetAnalysisRequest` pydantic model from models.py. -/
structure DatasetAnalysisRequest where
  tenant_id : String
  dataset_id : String
  operations : List String := ["summary", "correlation", "missing_values"]
deriving DecidableEq

/-- `AnalysisResult` pydantic model from models.py: every field optional and
absent unless populated.  The `custom` field is never populated by
`analyze_dataset`. -/
structure AnalysisResult where
  summary : Option SummaryStats := none
  correlation : Option (List (String × List (String × ℚ))) := none
  missing_values : Option (List (String × ℕ)) := none
  outliers : Option (List (String × List ℕ)) := none
  distributions : Option (List (String × DistInfo)) := none
  custom : Option (List (String × String)) := none
deriving DecidableEq

/-- `DataService.analyze_dataset` (lines 104-191 of data_service.py): 404
when the dataset file is absent for the requesting tenant, otherwise an
`AnalysisResult` whose fields are populated exactly for the requested
operation names; unknown names match no `if` and are ignored.  A file whose
content is not parseable tabular data would make `pd.read_csv` raise
(surfaced as HTTP 500). -/
def DataService.analyze_dataset (fs : FS) (request : DatasetAnalysisRequest) :
    Except ApiError AnalysisResult :=
  let path := datasetPath request.tenant_id request.dataset_id
  match FS.find fs path with
  | none => .error (.notFound ("Dataset not found: " ++ path))
  | some (.csv df) =>
    .ok
      { summary :=
          if request.operations.contains "summary" then some (summaryOf df) else none
        correlation :=
          if request.operations.contains "correlation" then
            some (if df.numericCols.isEmpty ∨ df.nrows = 0 then [] else correlationDict df)
          else none
        missing_values :=
          if request.operations.contains "missing_values" then some (missingValuesDict df)
          else none
        outliers :=
          if request.operations.contains "outliers" then some (outliersOf df) else none
        distributions :=
          if request.operations.contains "distributions" then some (distributionsOf df)
          else none
        custom := none }
  | some _ => .error (.internal "read_csv failed")

/-- Python's `str.endswith`, evaluated over the character list (the
byte-offset based `String.endsWith` of the core library does not reduce
inside proofs). -/
def strEndsWith (s suf : String) : Bool :=
  List.isSuffixOf suf.data s.data

/-- `DatasetUploadResponse` pydantic model from models.py. -/
structure DatasetUploadResponse where
  dataset_id : String
  tenant_id : String
  filename : String
  rows : ℕ
  columns : ℕ
  preview : List (List (String × Cell))
  column_stats : List (String × ColStats)
deriving DecidableEq

/-- `DataService.process_uploaded_dataset` (lines 23-102 of
data_service.py).  Parsing the uploaded bytes is done by pandas and is
external to the embedding: `parsed` is the frame the recognized parser
returns; the extension dispatch (`.csv` via `read_csv`, `.xls`/`.xlsx` via
`read_excel`, otherwise `ValueError`) is the source's.  On success the data
file and the metadata sidecar are written and the response carries the fresh
dataset id. -/
def DataService.process_uploaded_dataset (fs : FS) (filename : String)
    (parsed : DataFrame) (tenant_id dsId clock : String) :
    Except ApiError (DatasetUploadResponse × FS) :=
  if strEndsWith filename ".csv" ∨ strEndsWith filename ".xls" ∨ strEndsWith filename ".xlsx" then
    let fs1 := FS.insert fs (datasetPath tenant_id dsId) (.csv parsed)
    let stats := computeColumnStats parsed
    let meta : DatasetMetadata :=
      ⟨dsId, tenant_id, filename, clock, parsed.nrows, parsed.ncols, parsed.colNames, stats⟩
    let fs2 := FS.insert fs1 (datasetMetaPath tenant_id dsId) (.datasetMeta meta)
    .ok (⟨dsId, tenant_id, filename, parsed.nrows, parsed.ncols,
      parsed.headRecords 5, stats⟩, fs2)
  else
    .error (.valueError ("Unsupported file format: " ++ filename))

/-- `DataService.get_dataset_info` (lines 193-201 of data_service.py). -/
def DataService.get_dataset_info (fs : FS) (dataset_id tenant_id : String) :
    Except ApiError DatasetMetadata :=
  match FS.find fs (datasetMetaPath tenant_id dataset_id) with
  | some (.datasetMeta m) => .ok m
  | some _ => .error (.internal "json.load failed")
  | none => .error (.notFound ("Dataset not found: " ++ dataset_id))

/-- `DataService.delete_dataset` (lines 229-243 of data_service.py): 404
unless both the data file and the metadata file exist; otherwise both are
removed.  The `except` branch returning `false` guards OS-level removal
errors, which the pure model's `os.remove` cannot produce. -/
def DataService.delete_dataset (fs : FS) (dataset_id tenant_id : String) :
    Except ApiError (Bool × FS) :=
  let p := datasetPath tenant_id dataset_id
  let m := datasetMetaPath tenant_id dataset_id
  if FS.pathExists fs p && FS.pathExists fs m then
    .ok (true, FS.erase (FS.erase fs p) m)
  else
    .error (.notFound ("Dataset not found: " ++ dataset_id))

/-! ## Training (ml_service.py) and the main.py handlers -/

/-- Outcomes of the external pandas/sklearn/joblib calls inside
`train_model_task` whose success is not determined by the embedded data:
whether each such call raises (library exception texts are abstracted to
fixed descriptive strings, reflecting that `str(e)` of a library error is a
non-empty human-readable message), the evaluation metric values, the
estimator's feature-importance exposure, and the environment-measured
size/time numbers. -/
structure Oracle where
  readFails : Bool := false
  constructFails : Bool := false
  fitFails : Bool := false
  evalFails : Bool := false
  dumpFails : Bool := false
  metaWriteFails : Bool := false
  metricVal : String → ℚ := fun _ => 0
  hasImportance : Bool := true
  importances : List ℚ := []
  sizeBytes : ℕ := 0
  trainSeconds : ℚ := 0

/-- Lines 47-54 of ml_service.py: `next((c.name for c in request.columns if
c.is_target), None)` takes the FIRST declared target (duplicates are not
rejected); the Python truthiness test `if not target_col` also rejects an
empty target name; the features are the declared feature columns whose name
differs from the target. -/
def selectColumns (columns : List ColumnDefinition) : Except String (String × List String) :=
  let target_col := (columns.find? (·.is_target)).map (·.name)
  match target_col with
  | none => .error "No target column specified"
  | some t =>
    if t = "" then .error "No target column specified"
    else
      let feature_cols :=
        (columns.filter fun c => c.is_feature && decide (c.name ≠ t)).map (·.name)
      if feature_cols.isEmpty then .error "No feature columns specified"
      else .ok (t, feature_cols)

/-- The record the `/train` handler stores into `training_jobs` (lines 79-88
of main.py); the Python dict has no `model_id` key yet. -/
def initialJob (jobId tenant_id clock : String) : JobRecord :=
  ⟨jobId, tenant_id, "queued", clock, none, 0, [], none, none⟩

/-- The `/train` handler (lines 64-104 of main.py): 403 on tenant mismatch;
otherwise it stores the queued job record, schedules the background task,
and immediately returns a response whose `model_id` is the literal
placeholder "pending" and whose status is "queued". -/
def train_model (request : TrainingRequest) (tenant_id jobId clock : String)
    (training_jobs : Jobs) : Except ApiError (TrainingResponse × Jobs) :=
  if request.tenant_id ≠ tenant_id then .error (.forbidden "Tenant ID mismatch")
  else
    .ok (⟨"pending", tenant_id, "queued", jobId, "Training job queued successfully"⟩,
      Jobs.insert training_jobs jobId (initialJob jobId tenant_id clock))

/-- The `/training-status/JOB_ID` handler (lines 106-121 of main.py): 404
when the job id is unknown, 403 when the job belongs to another tenant. -/
def get_training_status (training_jobs : Jobs) (job_id tenant_id : String) :
    Except ApiError JobRecord :=
  match Jobs.find training_jobs job_id with
  | none => .error (.notFound "Training job not found")
  | some job =>
    if job.tenant_id ≠ tenant_id then
      .error (.forbidden "Access denied to this training job")
    else .ok job

/-- The `except` block of `train_model_task` (lines 177-181): three
successive field writes — status "failed", then `end_time`, then
`error_message`. -/
def failWrites (j : JobRecord) (clock msg : String) : List JobRecord :=
  [j.setStatus "failed",
   (j.setStatus "failed").setEndTime clock,
   ((j.setStatus "failed").setEndTime clock).setError msg]

/-- Metric keys computed per model type (lines 118-127 of ml_service.py);
the float values come from sklearn and are supplied by the oracle. -/
def metricsFor (t : ModelType) (o : Oracle) : List (String × ℚ) :=
  match t with
  | .classification => ["accuracy", "precision", "recall", "f1"].map fun k => (k, o.metricVal k)
  | .regression => ["r2_score", "mse", "rmse"].map fun k => (k, o.metricVal k)
  | _ => []

/-- f-string rendering of the request's optional dataset id (Python prints
`None` for an absent id when building the path on line 40). -/
def datasetIdStr : Option String → String
  | none => "None"
  | some s => s

/-- `MLService._get_feature_importance` (lines 233-252): the zip of the
feature names with the estimator's importances when the estimator exposes
them, `None` otherwise; never raises (every exception is caught). -/
def featureImportanceOf (o : Oracle) (feature_cols : List String) :
    Option (List (String × ℚ)) :=
  if o.hasImportance then some (feature_cols.zip o.importances) else none

/-- `MLService.train_model_task` (lines 32-181 of ml_service.py), run in the
background after the handler returns.  The result is the list of successive
states of the job record `training_jobs[job_id]`, one state per field write
in write order, together with the filesystem after the run.
`model_id_fresh` is the `uuid.uuid4()` of line 138 and `clock` stands for
the `datetime.now().isoformat()` values. -/
def train_model_task (request : TrainingRequest) (fs : FS) (o : Oracle)
    (j0 : JobRecord) (model_id_fresh clock : String) : List JobRecord × FS :=
  let j1 := j0.setStatus "in_progress"
  let j2 := j1.setProgress ((1 : ℚ)/10)
  let dataset_path := datasetPath request.tenant_id (datasetIdStr request.dataset_id)
  match FS.find fs dataset_path with
  | none => (j1 :: j2 :: failWrites j2 clock ("Dataset not found: " ++ dataset_path), fs)
  | some (.csv df) =>
    if o.readFails then (j1 :: j2 :: failWrites j2 clock "read_csv error", fs)
    else
      let j3 := j2.setProgress ((2 : ℚ)/10)
      match selectColumns request.columns with
      | .error msg => (j1 :: j2 :: j3 :: failWrites j3 clock msg, fs)
      | .ok (target_col, feature_cols) =>
        if !((feature_cols.all fun c => df.colNames.contains c) &&
            df.colNames.contains target_col) then
          (j1 :: j2 :: j3 :: failWrites j3 clock "KeyError: column not found in dataset", fs)
        else if df.nrows ≤ 1 then
          (j1 :: j2 :: j3 :: failWrites j3 clock "train_test_split error: not enough samples",
            fs)
        else
          let j4 := j3.setProgress ((3 : ℚ)/10)
          match request.model_type with
          | .clustering =>
            (j1 :: j2 :: j3 :: j4 ::
              failWrites j4 clock ("Unsupported model type: " ++ ModelType.toStr .clustering),
              fs)
          | .custom =>
            (j1 :: j2 :: j3 :: j4 ::
              failWrites j4 clock ("Unsupported model type: " ++ ModelType.toStr .custom), fs)
          | mt =>
            if o.constructFails then
              (j1 :: j2 :: j3 :: j4 :: failWrites j4 clock "estimator construction error", fs)
            else
              let j5 := j4.setProgress ((4 : ℚ)/10)
              if o.fitFails then
                (j1 :: j2 :: j3 :: j4 :: j5 :: failWrites j5 clock "model fit error", fs)
              else
                let j6 := j5.setProgress ((7 : ℚ)/10)
                if o.evalFails then
                  (j1 :: j2 :: j3 :: j4 :: j5 :: j6 ::
                    failWrites j6 clock "model evaluation error", fs)
                else
                  let metrics := metricsFor mt o
                  let j7 := j6.setProgress ((8 : ℚ)/10)
                  let fi := featureImportanceOf o feature_cols
                  let model_path := modelPath request.tenant_id model_id_fresh
                  if o.dumpFails then
                    (j1 :: j2 :: j3 :: j4 :: j5 :: j6 :: j7 ::
                      failWrites j7 clock "joblib dump error", fs)
                  else
                    let fs1 := FS.insert fs model_path (.joblib ⟨mt, feature_cols⟩)
                    if o.metaWriteFails then
                      (j1 :: j2 :: j3 :: j4 :: j5 :: j6 :: j7 ::
                        failWrites j7 clock "metadata write error", fs1)
                    else
                      let meta : ModelMetadata :=
                        ⟨model_id_fresh, request.tenant_id, request.model_name, mt,
                          request.description, request.tags, clock, clock, metrics, fi,
                          "active", 1, request.dataset_id, request.columns,
                          request.training_config, o.sizeBytes, o.trainSeconds⟩
                      let fs2 :=
                        FS.insert fs1 (modelMetaPath request.tenant_id model_id_fresh)
                          (.modelMeta meta)
                      let j8 := j7.setProgress 1
                      let j9 := j8.setStatus "completed"
                      let j10 := j9.setEndTime clock
                      let j11 := j10.setModelId model_id_fresh
                      let j12 := j11.setMetrics metrics
                      (j1 :: j2 :: j3 :: j4 :: j5 :: j6 :: j7 :: j8 :: j9 :: j10 :: j11 ::
                        [j12], fs2)
  | some _ => (j1 :: j2 :: failWrites j2 clock "read_csv error", fs)

/-- The full lifecycle of one accepted training submission: the queued
record the handler created followed by the background task's writes.  The
first component is the trace of job-record states, starting from the queued
record. -/
def trainLifecycle (request : TrainingRequest) (tenant_id jobId clock : String)
    (fs : FS) (o : Oracle) (model_id_fresh : String) : List JobRecord × FS :=
  let j0 := initialJob jobId tenant_id clock
  let r := train_model_task request fs o j0 model_id_fresh clock
  (j0 :: r.1, r.2)

/-- `MLService.predict` (lines 183-194 of ml_service.py):
`FileNotFoundError` (surfaced as HTTP 404 by the handler) when no model file
exists at this tenant's path; otherwise the loaded pipeline is applied by
sklearn (`run`, external to the embedding), one prediction per input row. -/
def MLService.predict (fs : FS) (model_id tenant_id : String) (data : DataFrame)
    (run : SavedModel → DataFrame → List ℚ) : Except ApiError (List ℚ) :=
  match FS.find fs (modelPath tenant_id model_id) with
  | some (.joblib m) => .ok (run m data)
  | some _ => .error (.internal "joblib load error")
  | none => .error (.notFound ("Model not found: " ++ modelPath tenant_id model_id))

/-- `PredictionRequest` pydantic model from models.py. -/
structure PredictionRequest where
  tenant_id : String
  model_id : String
  data : List (List (String × Cell))
deriving DecidableEq

/-- The `/predict` handler (lines 123-150 of main.py): 403 on tenant
mismatch, then delegates to `MLService.predict`; a `FileNotFoundError`
surfaces as 404 "Model not found". -/
def predictHandler (fs : FS) (request : PredictionRequest) (tenant_id : String)
    (parse : List (List (String × Cell)) → DataFrame)
    (run : SavedModel → DataFrame → List ℚ) : Except ApiError (List ℚ) :=
  if request.tenant_id ≠ tenant_id then .error (.forbidden "Tenant ID mismatch")
  else
    match MLService.predict fs request.model_id tenant_id (parse request.data) run with
    | .error (.notFound _) => .error (.notFound "Model not found")
    | r => r

/-- `MLService.get_model_info` (lines 207-215 of ml_service.py): `None` when
the metadata file is absent for this tenant. -/
def MLService.get_model_info (fs : FS) (model_id tenant_id : String) :
    Except ApiError (Option ModelMetadata) :=
  match FS.find fs (modelMetaPath tenant_id model_id) with
  | none => .ok none
  | some (.modelMeta m) => .ok (some m)
  | some _ => .error (.internal "json.load failed")

/-- The `/models/MODEL_ID` GET handler (lines 198-213 of main.py): 404 when
`get_model_info` returns `None`. -/
def getModelHandler (fs : FS) (model_id tenant_id : String) :
    Except ApiError ModelMetadata :=
  match MLService.get_model_info fs model_id tenant_id with
  | .ok none => .error (.notFound "Model not found")
  | .ok (some m) => .ok m
  | .error e => .error e

/-- `MLService.delete_model` (lines 217-231 of ml_service.py): 404 unless
both the model file and the metadata file exist for this tenant; otherwise
both are removed (the `except` branch returning `false` guards OS-level
errors the pure model cannot produce). -/
def MLService.delete_model (fs : FS) (model_id tenant_id : String) :
    Except ApiError (Bool × FS) :=
  let p := modelPath tenant_id model_id
  let m := modelMetaPath tenant_id model_id
  if FS.pathExists fs p && FS.pathExists fs m then
    .ok (true, FS.erase (FS.erase fs p) m)
  else
    .error (.notFound ("Model not found: " ++ model_id))

/-! ## Store lemmas -/

theorem FS.find_erase (fs : FS) (q p : String) :
    FS.find (FS.erase fs q) p = if p = q then none else FS.find fs p := by
  induction fs with
  | nil => simp [FS.find, FS.erase]
  | cons kv rest ih =>
    by_cases hkq : kv.1 = q
    · have h1 : FS.erase (kv :: rest) q = FS.erase rest q := by
        simp [FS.erase, List.filter_cons, hkq]
      rw [h1, ih]
      by_cases hpq : p = q
      · simp [hpq]
      · have hkp : ¬ kv.1 = p := fun hh => hpq (by rw [← hh]; exact hkq)
        simp [FS.find, hpq, hkp]
    · have h1 : FS.erase (kv :: rest) q = kv :: FS.erase rest q := by
        simp [FS.erase, List.filter_cons, hkq]
      rw [h1]
      by_cases hkp : kv.1 = p
      · have hpq : ¬ p = q := fun hh => hkq (hkp.trans hh)
        simp [FS.find, hkp, hpq]
      · simp [FS.find, hkp, ih]

theorem FS.find_insert (fs : FS) (q p : String) (v : FileData) :
    FS.find (FS.insert fs q v) p = if p = q then some v else FS.find fs p := by
  by_cases hpq : p = q
  · subst hpq
    simp [FS.insert, FS.find]
  · have hqp : ¬ q = p := fun hh => hpq hh.symm
    simp [FS.insert, FS.find, hqp, FS.find_erase, hpq]

theorem datasetPath_tenant_inj {a b i : String} (h : datasetPath a i = datasetPath b i) :
    a = b := by
  have hd := congrArg String.data h
  simp only [datasetPath, String.data_append, List.append_assoc] at hd
  exact String.ext (List.append_cancel_right (List.append_cancel_left hd))

theorem datasetMetaPath_tenant_inj {a b i : String}
    (h : datasetMetaPath a i = datasetMetaPath b i) : a = b := by
  have hd := congrArg String.data h
  simp only [datasetMetaPath, String.data_append, List.append_assoc] at hd
  exact String.ext (List.append_cancel_right (List.append_cancel_left hd))

theorem modelPath_tenant_inj {a b i : String} (h : modelPath a i = modelPath b i) :
    a = b := by
  have hd := congrArg String.data h
  simp only [modelPath, String.data_append, List.append_assoc] at hd
  exact String.ext (List.append_cancel_right (List.append_cancel_left hd))

theorem modelMetaPath_tenant_inj {a b i : String} (h : modelMetaPath a i = modelMetaPath b i) :
    a = b := by
  have hd := congrArg String.data h
  simp only [modelMetaPath, String.data_append, List.append_assoc] at hd
  exact String.ext (List.append_cancel_right (List.append_cancel_left hd))

@[simp] theorem JobRecord.status_setStatus (j : JobRecord) (s : String) :
    (j.setStatus s).status = s := rfl

@[simp] theorem JobRecord.progress_setStatus (j : JobRecord) (s : String) :
    (j.setStatus s).progress = j.progress := rfl

@[simp] theorem JobRecord.end_time_setStatus (j : JobRecord) (s : String) :
    (j.setStatus s).end_time = j.end_time := rfl

@[simp] theorem JobRecord.error_message_setStatus (j : JobRecord) (s : String) :
    (j.setStatus s).error_message = j.error_message := rfl

@[simp] theorem JobRecord.model_id_setStatus (j : JobRecord) (s : String) :
    (j.setStatus s).model_id = j.model_id := rfl

@[simp] theorem JobRecord.metrics_setStatus (j : JobRecord) (s : String) :
    (j.setStatus s).metrics = j.metrics := rfl

@[simp] theorem JobRecord.status_setProgress (j : JobRecord) (p : ℚ) :
    (j.setProgress p).status = j.status := rfl

@[simp] theorem JobRecord.progress_setProgress (j : JobRecord) (p : ℚ) :
    (j.setProgress p).progress = p := rfl

@[simp] theorem JobRecord.end_time_setProgress (j : JobRecord) (p : ℚ) :
    (j.setProgress p).end_time = j.end_time := rfl

@[simp] theorem JobRecord.error_message_setProgress (j : JobRecord) (p : ℚ) :
    (j.setProgress p).error_message = j.error_message := rfl

@[simp] theorem JobRecord.model_id_setProgress (j : JobRecord) (p : ℚ) :
    (j.setProgress p).model_id = j.model_id := rfl

@[simp] theorem JobRecord.metrics_setProgress (j : JobRecord) (p : ℚ) :
    (j.setProgress p).metrics = j.metrics := rfl

@[simp] theorem JobRecord.status_setEndTime (j : JobRecord) (t : String) :
    (j.setEndTime t).status = j.status := rfl

@[simp] theorem JobRecord.progress_setEndTime (j : JobRecord) (t : String) :
    (j.setEndTime t).progress = j.progress := rfl

@[simp] theorem JobRecord.end_time_setEndTime (j : JobRecord) (t : String) :
    (j.setEndTime t).end_time = some t := rfl

@[simp] theorem JobRecord.error_message_setEndTime (j : JobRecord) (t : String) :
    (j.setEndTime t).error_message = j.error_message := rfl

@[simp] theorem JobRecord.model_id_setEndTime (j : JobRecord) (t : String) :
    (j.setEndTime t).model_id = j.model_id := rfl

@[simp] theorem JobRecord.metrics_setEndTime (j : JobRecord) (t : String) :
    (j.setEndTime t).metrics = j.metrics := rfl

@[simp] theorem JobRecord.status_setError (j : JobRecord) (m : String) :
    (j.setError m).status = j.status := rfl

@[simp] theorem JobRecord.progress_setError (j : JobRecord) (m : String) :
    (j.setError m).progress = j.progress := rfl

@[simp] theorem JobRecord.end_time_setError (j : JobRecord) (m : String) :
    (j.setError m).end_time = j.end_time := rfl

@[simp] theorem JobRecord.error_message_setError (j : JobRecord) (m : String) :
    (j.setError m).error_message = some m := rfl

@[simp] theorem JobRecord.model_id_setError (j : JobRecord) (m : String) :
    (j.setError m).model_id = j.model_id := rfl

@[simp] theorem JobRecord.metrics_setError (j : JobRecord) (m : String) :
    (j.setError m).metrics = j.metrics := rfl

@[simp] theorem JobRecord.status_setModelId (j : JobRecord) (m : String) :
    (j.setModelId m).status = j.status := rfl

@[simp] theorem JobRecord.progress_setModelId (j : JobRecord) (m : String) :
    (j.setModelId m).progress = j.progress := rfl

@[simp] theorem JobRecord.end_time_setModelId (j : JobRecord) (m : String) :
    (j.setModelId m).end_time = j.end_time := rfl

@[simp] theorem JobRecord.error_message_setModelId (j : JobRecord) (m : String) :
    (j.setModelId m).error_message = j.error_message := rfl

@[simp] theorem JobRecord.model_id_setModelId (j : JobRecord) (m : String) :
    (j.setModelId m).model_id = some m := rfl

@[simp] theorem JobRecord.metrics_setModelId (j : JobRecord) (m : String) :
    (j.setModelId m).metrics = j.metrics := rfl

@[simp] theorem JobRecord.status_setMetrics (j : JobRecord) (ms : List (String × ℚ)) :
    (j.setMetrics ms).status = j.status := rfl

@[simp] theorem JobRecord.progress_setMetrics (j : JobRecord) (ms : List (String × ℚ)) :
    (j.setMetrics ms).progress = j.progress := rfl

@[simp] theorem JobRecord.end_time_setMetrics (j : JobRecord) (ms : List (String × ℚ)) :
    (j.setMetrics ms).end_time = j.end_time := rfl

@[simp] theorem JobRecord.error_message_setMetrics (j : JobRecord) (ms : List (String × ℚ)) :
    (j.setMetrics ms).error_message = j.error_message := rfl

@[simp] theorem JobRecord.model_id_setMetrics (j : JobRecord) (ms : List (String × ℚ)) :
    (j.setMetrics ms).model_id = j.model_id := rfl

@[simp] theorem JobRecord.metrics_setMetrics (j : JobRecord) (ms : List (String × ℚ)) :
    (j.setMetrics ms).metrics = ms := rfl

@[simp] theorem initialJob_status (jobId t c : String) :
    (initialJob jobId t c).status = "queued" := rfl

@[simp] theorem initialJob_progress (jobId t c : String) :
    (initialJob jobId t c).progress = 0 := rfl

@[simp] theorem initialJob_end_time (jobId t c : String) :
    (initialJob jobId t c).end_time = none := rfl

@[simp] theorem initialJob_error_message (jobId t c : String) :
    (initialJob jobId t c).error_message = none := rfl

@[simp] theorem initialJob_model_id (jobId t c : String) :
    (initialJob jobId t c).model_id = none := rfl

@[simp] theorem initialJob_tenant_id (jobId t c : String) :
    (initialJob jobId t c).tenant_id = t := rfl

theorem datasetPath_ne_metaPath (t i : String) : datasetPath t i ≠ datasetMetaPath t i := by
  intro h
  have hd := congrArg String.data h
  simp only [datasetPath, datasetMetaPath, String.data_append, List.append_assoc] at hd
  have h4 := List.append_cancel_left (List.append_cancel_left
    (List.append_cancel_left (List.append_cancel_left hd)))
  exact absurd (String.ext h4) (by decide)

theorem modelPath_ne_metaPath (t i : String) : modelPath t i ≠ modelMetaPath t i := by
  intro h
  have hd := congrArg String.data h
  simp only [modelPath, modelMetaPath, String.data_append, List.append_assoc] at hd
  have h4 := List.append_cancel_left (List.append_cancel_left
    (List.append_cancel_left (List.append_cancel_left hd)))
  exact absurd (String.ext h4) (by decide)

/-! ## Claim C10 -/

/-- C10: the synchronous response of an accepted training submission always
carries the literal placeholder "pending" in its model_id field and status
"queued", whatever the request contains and however the job later ends; and
in the trace of job-record states written by the background run, the
model_id field is populated only in states whose status is "completed" — so
the real model id is observable only by polling the job's status after it
reaches completed. -/
theorem c10_response_is_pending_placeholder (request : TrainingRequest)
    (tenant_id jobId clock mid : String) (training_jobs : Jobs) (fs : FS) (o : Oracle)
    (hmatch : request.tenant_id = tenant_id) :
    (∃ jobs2, train_model request tenant_id jobId clock training_jobs =
        .ok (⟨"pending", tenant_id, "queued", jobId, "Training job queued successfully"⟩,
          jobs2) ∧
      Jobs.find jobs2 jobId = some (initialJob jobId tenant_id clock)) ∧
    ∀ r ∈ (trainLifecycle request tenant_id jobId clock fs o mid).1,
      r.model_id.isSome = true → r.status = "completed" := by
  constructor
  · refine ⟨Jobs.insert training_jobs jobId (initialJob jobId tenant_id clock), ?_, ?_⟩
    · simp [train_model, hmatch]
    · simp [Jobs.insert, Jobs.find]
  · simp only [trainLifecycle, train_model_task]
    repeat' split
    all_goals simp [failWrites, List.forall_mem_cons, initialJob]

/-! ## Validation-failure helpers -/

/-- The trace of states of one job's record over its lifecycle. -/
def lifecycleTrace (request : TrainingRequest) (tenant_id jobId clock : String)
    (fs : FS) (o : Oracle) (mid : String) : List JobRecord :=
  (trainLifecycle request tenant_id jobId clock fs o mid).1

/-- The §8 concrete scenario's dataset: columns `x = [1,2,3]`,
`y = [10,20,30]`. -/
def dfW : DataFrame :=
  ⟨[("x", .numeric [some 1, some 2, some 3]), ("y", .numeric [some 10, some 20, some 30])]⟩

/-- A store holding `dfW` as dataset `d1` of `tenant_1`. -/
def fsW : FS :=
  [(datasetPath "tenant_1" "d1", .csv dfW)]

/-- A valid regression training request on `d1` (target `y`, feature `x`). -/
def reqW : TrainingRequest :=
  ⟨"tenant_1", "m", .regression, some "d1",
    [⟨"y", .numeric, true, true, true, none⟩, ⟨"x", .numeric, false, true, true, none⟩],
    [], none, []⟩


theorem append_ne_empty (s t : String) (hs : s ≠ "") : s ++ t ≠ "" := by
  intro h
  have hd := congrArg String.data h
  rw [String.data_append] at hd
  have hde : ("" : String).data = [] := rfl
  rw [hde, List.append_eq_nil] at hd
  exact hs (String.ext (hd.1.trans hde.symm))

theorem selectColumns_error_cases (cols : List ColumnDefinition) (m : String)
    (h : selectColumns cols = .error m) :
    m = "No target column specified" ∨ m = "No feature columns specified" := by
  simp only [selectColumns] at h
  split at h
  · exact Or.inl (Except.error.inj h).symm
  · split at h
    · exact Or.inl (Except.error.inj h).symm
    · split at h
      · exact Or.inr (Except.error.inj h).symm
      · exact absurd h (by simp)

theorem selectColumns_error_of_violation (cols : List ColumnDefinition)
    (h : (∀ c ∈ cols, c.is_target = false) ∨
      (∃ t, (cols.find? (·.is_target)).map (·.name) = some t ∧
        ∀ c ∈ cols, c.is_feature = true → c.name = t)) :
    selectColumns cols = .error "No target column specified" ∨
    selectColumns cols = .error "No feature columns specified" := by
  rcases h with h | ⟨t, ht, hf⟩
  · left
    have hn : cols.find? (·.is_target) = none := by
      apply List.find?_eq_none.mpr
      intro x hx
      simp [h x hx]
    simp [selectColumns, hn]
  · by_cases hte : t = ""
    · left
      simp [selectColumns, ht, hte]
    · right
      have hfil : (cols.filter fun c => c.is_feature && decide (c.name ≠ t)) = [] := by
        apply List.filter_eq_nil_iff.mpr
        intro c hc
        by_cases hcf : c.is_feature = true
        · simp [hcf, hf c hc hcf]
        · simp [hcf]
      simp [selectColumns, ht, hte, hfil] <;> exact hf

/-- Whatever makes the background run fail, the final state of its trace
carries status "failed" only together with a stamped end_time and a
non-empty error message. -/
theorem task_final_failed_fields (request : TrainingRequest) (fs : FS) (o : Oracle)
    (j0 : JobRecord) (mid clock : String) :
    ∀ last, (train_model_task request fs o j0 mid clock).1.getLast? = some last →
      last.status = "failed" →
      last.end_time = some clock ∧ ∃ m, last.error_message = some m ∧ m ≠ "" := by
  intro last hlast hfail
  cases hsel : selectColumns request.columns with
  | error m =>
    simp only [train_model_task, hsel] at hlast
    rcases selectColumns_error_cases request.columns m hsel with rfl | rfl
    all_goals repeat' split at hlast
    all_goals simp only [failWrites, List.getLast?_cons_cons, List.getLast?_singleton,
      Option.some.injEq] at hlast
    all_goals subst hlast
    all_goals simp_all
    all_goals first
      | exact append_ne_empty _ _ (by decide)
      | decide
  | ok p =>
    simp only [train_model_task, hsel] at hlast
    repeat' split at hlast
    all_goals simp only [failWrites, List.getLast?_cons_cons, List.getLast?_singleton,
      Option.some.injEq] at hlast
    all_goals subst hlast
    all_goals simp_all
    all_goals first
      | exact append_ne_empty _ _ (by decide)
      | decide

/-- The background task always writes at least one state. -/
theorem task_trace_ne_nil (request : TrainingRequest) (fs : FS) (o : Oracle)
    (j0 : JobRecord) (mid clock : String) :
    (train_model_task request fs o j0 mid clock).1 ≠ [] := by
  simp only [train_model_task]
  repeat' split
  all_goals simp [failWrites]

/-- The final state of the lifecycle trace is the final state written by the
background task. -/
theorem lifecycleTrace_getLast (request : TrainingRequest)
    (tenant_id jobId clock mid : String) (fs : FS) (o : Oracle) :
    (lifecycleTrace request tenant_id jobId clock fs o mid).getLast? =
      (train_model_task request fs o (initialJob jobId tenant_id clock) mid clock).1.getLast? := by
  simp only [lifecycleTrace, trainLifecycle]
  cases h : (train_model_task request fs o (initialJob jobId tenant_id clock) mid clock).1 with
  | nil => exact absurd h (task_trace_ne_nil request fs o _ mid clock)
  | cons a l => simp [h, List.getLast?_cons_cons]

/-- When column selection fails, the background run ends in the failed
state. -/
theorem task_final_failed_of_selectColumns_error (request : TrainingRequest) (fs : FS)
    (o : Oracle) (j0 : JobRecord) (mid clock m : String)
    (hsel : selectColumns request.columns = .error m) :
    ∀ last, (train_model_task request fs o j0 mid clock).1.getLast? = some last →
      last.status = "failed" := by
  intro last hlast
  simp only [train_model_task, hsel] at hlast
  repeat' split at hlast
  all_goals simp only [failWrites, List.getLast?_cons_cons, List.getLast?_singleton,
    Option.some.injEq] at hlast
  all_goals subst hlast
  all_goals simp

/-- When column selection fails, no state the background run writes has
status "completed". -/
theorem task_never_completed_of_selectColumns_error (request : TrainingRequest) (fs : FS)
    (o : Oracle) (j0 : JobRecord) (mid clock m : String)
    (hsel : selectColumns request.columns = .error m) :
    ∀ r ∈ (train_model_task request fs o j0 mid clock).1, r.status ≠ "completed" := by
  simp only [train_model_task, hsel]
  repeat' split
  all_goals simp [failWrites, List.forall_mem_cons]

/-- A run that ends failed and whose metadata write did not fail leaves the
filesystem untouched: the model file is written only on the success path and
in the run that fails during metadata persistence. -/
theorem task_fs_unchanged_of_failed (request : TrainingRequest) (fs : FS) (o : Oracle)
    (j0 : JobRecord) (mid clock : String) (hmw : o.metaWriteFails = false)
    (last : JobRecord)
    (hlast : (train_model_task request fs o j0 mid clock).1.getLast? = some last)
    (hfail : last.status = "failed") :
    (train_model_task request fs o j0 mid clock).2 = fs := by
  revert hlast
  simp only [train_model_task]
  repeat' split
  all_goals intro hlast
  all_goals simp only [failWrites, List.getLast?_cons_cons, List.getLast?_singleton,
    Option.some.injEq] at hlast
  all_goals subst hlast
  all_goals simp_all

/-! ## Claim C2 -/

/-- C2: for every training request whose column list has no entry with
is_target = true, or no feature entry with a name different from the (first
declared) target, job submission still succeeds and creates the job in the
queued state, the background execution ends with the job failed carrying a
non-empty error_message, and no state of the job's lifecycle ever has
status "completed". -/
theorem c2_invalid_columns_fail_async (request : TrainingRequest)
    (tenant_id jobId clock mid : String) (training_jobs : Jobs) (fs : FS) (o : Oracle)
    (hmatch : request.tenant_id = tenant_id)
    (hviol : (∀ c ∈ request.columns, c.is_target = false) ∨
      (∃ t, (request.columns.find? (·.is_target)).map (·.name) = some t ∧
        ∀ c ∈ request.columns, c.is_feature = true → c.name = t)) :
    (∃ jobs2, train_model request tenant_id jobId clock training_jobs =
        .ok (⟨"pending", tenant_id, "queued", jobId, "Training job queued successfully"⟩,
          jobs2) ∧
      Jobs.find jobs2 jobId = some (initialJob jobId tenant_id clock) ∧
      (initialJob jobId tenant_id clock).status = "queued") ∧
    (∀ r ∈ lifecycleTrace request tenant_id jobId clock fs o mid, r.status ≠ "completed") ∧
    (∀ last, (lifecycleTrace request tenant_id jobId clock fs o mid).getLast? = some last →
      last.status = "failed" ∧ ∃ m, last.error_message = some m ∧ m ≠ "") := by
  obtain ⟨m, hsel⟩ : ∃ m, selectColumns request.columns = .error m := by
    rcases selectColumns_error_of_violation request.columns hviol with h | h
    · exact ⟨_, h⟩
    · exact ⟨_, h⟩
  refine ⟨⟨Jobs.insert training_jobs jobId (initialJob jobId tenant_id clock),
    by simp [train_model, hmatch], by simp [Jobs.insert, Jobs.find], rfl⟩, ?_, ?_⟩
  · intro r hr
    simp only [lifecycleTrace, trainLifecycle, List.mem_cons] at hr
    rcases hr with rfl | hr
    · simp
    · exact task_never_completed_of_selectColumns_error request fs o _ mid clock m hsel r hr
  · intro last hlast
    rw [lifecycleTrace_getLast] at hlast
    have hfail := task_final_failed_of_selectColumns_error request fs o _ mid clock m hsel
      last hlast
    have hfields := task_final_failed_fields request fs o _ mid clock last hlast hfail
    exact ⟨hfail, hfields.2⟩

/-- A training request that declares no target column at all. -/
def reqNoTarget : TrainingRequest :=
  ⟨"tenant_1", "m", .regression, some "d1",
    [⟨"x", .numeric, false, true, true, none⟩], [], none, []⟩

/-- Witness for C2 at a concrete target-less request. -/
theorem c2_witness :
    (∀ r ∈ lifecycleTrace reqNoTarget "tenant_1" "job1" "t0" fsW {} "mid1",
      r.status ≠ "completed") ∧
    (∀ last, (lifecycleTrace reqNoTarget "tenant_1" "job1" "t0" fsW {} "mid1").getLast? =
        some last →
      last.status = "failed" ∧ ∃ m, last.error_message = some m ∧ m ≠ "") :=
  ⟨(c2_invalid_columns_fail_async reqNoTarget "tenant_1" "job1" "t0" "mid1" [] fsW {} rfl
      (Or.inl (by decide))).2.1,
   (c2_invalid_columns_fail_async reqNoTarget "tenant_1" "job1" "t0" "mid1" [] fsW {} rfl
      (Or.inl (by decide))).2.2⟩

/-! ## Claim C3 -/

/-- Counterexample to C3 as stated: for a concrete training submission whose
column list declares no target (a validation violation), the synchronous
call succeeds and returns a queued response — the violation is NOT detected
or reported synchronously to the submitting caller in any form; it can only
be observed later through the job's failed state. -/
theorem c3_claim_counterexample :
    train_model reqNoTarget "tenant_1" "job1" "t0" [] =
      .ok (⟨"pending", "tenant_1", "queued", "job1", "Training job queued successfully"⟩,
        [("job1", initialJob "job1" "tenant_1" "t0")]) := rfl

/-- C3 (amended): a violated validation precondition — the dataset absent
for the tenant, or a malformed target/feature declaration — is NOT reported
synchronously to the submitting caller (the submission returns a queued
response, see `c3_claim_counterexample`); instead the background run detects
it before any heavy work begins and records it in the job: every state of
the lifecycle keeps progress at most 0.2 (the data split, fit, evaluation
and persistence checkpoints at progress 0.3 and beyond are never reached)
and the run ends failed with a non-empty error message. -/
theorem c3_validation_fails_before_heavy_work (request : TrainingRequest)
    (tenant_id jobId clock mid : String) (training_jobs : Jobs) (fs : FS) (o : Oracle)
    (hmatch : request.tenant_id = tenant_id)
    (hviol :
      FS.find fs (datasetPath request.tenant_id (datasetIdStr request.dataset_id)) = none ∨
      (∀ c ∈ request.columns, c.is_target = false) ∨
      (∃ t, (request.columns.find? (·.is_target)).map (·.name) = some t ∧
        ∀ c ∈ request.columns, c.is_feature = true → c.name = t)) :
    (∃ jobs2, train_model request tenant_id jobId clock training_jobs =
        .ok (⟨"pending", tenant_id, "queued", jobId, "Training job queued successfully"⟩,
          jobs2)) ∧
    (∀ r ∈ lifecycleTrace request tenant_id jobId clock fs o mid,
      r.progress ≤ (2 : ℚ)/10) ∧
    (∀ last, (lifecycleTrace request tenant_id jobId clock fs o mid).getLast? = some last →
      last.status = "failed" ∧ ∃ m, last.error_message = some m ∧ m ≠ "") := by
  refine ⟨⟨Jobs.insert training_jobs jobId (initialJob jobId tenant_id clock),
    by simp [train_model, hmatch]⟩, ?_, ?_⟩
  · rcases hviol with hds | hviol
    · simp only [lifecycleTrace, trainLifecycle, train_model_task, hds]
      simp [failWrites, List.forall_mem_cons, initialJob]
      norm_num
    · obtain ⟨m, hsel⟩ : ∃ m, selectColumns request.columns = .error m := by
        rcases selectColumns_error_of_violation request.columns hviol with h | h
        · exact ⟨_, h⟩
        · exact ⟨_, h⟩
      simp only [lifecycleTrace, trainLifecycle, train_model_task, hsel]
      repeat' split
      all_goals simp [failWrites, List.forall_mem_cons, initialJob]
      all_goals norm_num
  · intro last hlast
    rw [lifecycleTrace_getLast] at hlast
    have hfail : last.status = "failed" := by
      rcases hviol with hds | hviol
      · simp only [train_model_task, hds] at hlast
        simp only [failWrites, List.getLast?_cons_cons, List.getLast?_singleton,
          Option.some.injEq] at hlast
        subst hlast
        simp
      · obtain ⟨m, hsel⟩ : ∃ m, selectColumns request.columns = .error m := by
          rcases selectColumns_error_of_violation request.columns hviol with h | h
          · exact ⟨_, h⟩
          · exact ⟨_, h⟩
        exact task_final_failed_of_selectColumns_error request fs o _ mid clock m hsel
          last hlast
    have hfields := task_final_failed_fields request fs o _ mid clock last hlast hfail
    exact ⟨hfail, hfields.2⟩

/-- Witness for the amended C3 at a concrete target-less request. -/
theorem c3_witness :
    (∀ r ∈ lifecycleTrace reqNoTarget "tenant_1" "job1" "t0" fsW {} "mid1",
      r.progress ≤ (2 : ℚ)/10) ∧
    (∀ last, (lifecycleTrace reqNoTarget "tenant_1" "job1" "t0" fsW {} "mid1").getLast? =
        some last →
      last.status = "failed" ∧ ∃ m, last.error_message = some m ∧ m ≠ "") :=
  ⟨(c3_validation_fails_before_heavy_work reqNoTarget "tenant_1" "job1" "t0" "mid1" [] fsW {}
      rfl (Or.inr (Or.inl (by decide)))).2.1,
   (c3_validation_fails_before_heavy_work reqNoTarget "tenant_1" "job1" "t0" "mid1" [] fsW {}
      rfl (Or.inr (Or.inl (by decide)))).2.2⟩

/-! ## Claim C4 -/

/-- C4 (amended): when the background execution raises at any checkpoint,
the job transitions directly to failed with a stamped end_time and a
non-empty human-readable error message; and unless the exception occurred
during metadata persistence — i.e. after the model file itself had already
been serialized to the store — the run leaves the Artifact Store exactly as
it found it (no partial artifact write).  Amendment forced by
`c4_claim_counterexample`: the claim asserted that the store NEVER holds a
model file from a failed run, but an exception raised while writing the
metadata sidecar (after `joblib.dump` succeeded) leaves the serialized model
file in the store while the job ends failed. -/
theorem c4_failed_run_fields_and_store_untouched (request : TrainingRequest)
    (tenant_id jobId clock mid : String) (fs : FS) (o : Oracle) (last : JobRecord)
    (hlast : (lifecycleTrace request tenant_id jobId clock fs o mid).getLast? = some last)
    (hfail : last.status = "failed") :
    last.end_time = some clock ∧ (∃ m, last.error_message = some m ∧ m ≠ "") ∧
    (o.metaWriteFails = false →
      (trainLifecycle request tenant_id jobId clock fs o mid).2 = fs) := by
  rw [lifecycleTrace_getLast] at hlast
  have hfields := task_final_failed_fields request fs o _ mid clock last hlast hfail
  refine ⟨hfields.1, hfields.2, fun hmw => ?_⟩
  simp only [trainLifecycle]
  exact task_fs_unchanged_of_failed request fs o _ mid clock hmw last hlast hfail

/-- An oracle whose only failing step is the metadata write. -/
def oMetaFail : Oracle :=
  { metaWriteFails := true }

/-- Counterexample to C4 as stated: on a concrete run that fails during
metadata persistence, the job ends failed, yet the Artifact Store holds the
model file serialized by that run — a partial artifact write from a failed
run. -/
theorem c4_claim_counterexample :
    ∃ last, (lifecycleTrace reqW "tenant_1" "job1" "t0" fsW oMetaFail "mid1").getLast? =
        some last ∧
      last.status = "failed" ∧
      FS.find (trainLifecycle reqW "tenant_1" "job1" "t0" fsW oMetaFail "mid1").2
          (modelPath "tenant_1" "mid1") =
        some (.joblib ⟨.regression, ["x"]⟩) :=
  ⟨_, rfl, rfl, rfl⟩

/-- An oracle whose only failing step is the estimator fit. -/
def oFitFail : Oracle :=
  { fitFails := true }

/-- Witness for the amended C4 at a concrete run failing at the fit
checkpoint. -/
theorem c4_witness :
    ∃ last, (lifecycleTrace reqW "tenant_1" "job1" "t0" fsW oFitFail "mid1").getLast? =
        some last ∧
      last.end_time = some "t0" ∧ (∃ m, last.error_message = some m ∧ m ≠ "") ∧
      (trainLifecycle reqW "tenant_1" "job1" "t0" fsW oFitFail "mid1").2 = fsW := by
  obtain ⟨het, hm, hfs⟩ := c4_failed_run_fields_and_store_untouched reqW "tenant_1" "job1"
    "t0" "mid1" fsW oFitFail _ rfl rfl
  exact ⟨_, rfl, het, hm, hfs rfl⟩

/-! ## Claim C5 -/

/-- Progress does not decrease between two states. -/
def progressLE (a b : JobRecord) : Prop :=
  a.progress ≤ b.progress

instance : IsTrans JobRecord progressLE :=
  ⟨fun _ _ _ => le_trans⟩

/-- If the earlier state's status is terminal, the later state still has
that status. -/
def statusStable (a b : JobRecord) : Prop :=
  (a.status = "completed" ∨ a.status = "failed") → b.status = a.status

instance : IsTrans JobRecord statusStable := by
  refine ⟨fun a b c hab hbc ha => ?_⟩
  have hb := hab ha
  have hbt : b.status = "completed" ∨ b.status = "failed" := by
    rcases ha with h | h
    · exact Or.inl (hb.trans h)
    · exact Or.inr (hb.trans h)
  rw [hbc hbt, hb]

/-- C5 (amended): over the lifecycle of a single job — the queued record
created by the handler followed by every successive state written by the
background task — the written progress values are monotonically
non-decreasing and stay within [0.0, 1.0]; the status field, once terminal
("completed" or "failed"), never changes again; and the run's final state is
terminal with end_time set.  Amendment forced by `c5_claim_counterexample`:
the claim additionally asserted that once the status is terminal NO field of
the record ever changes again, but the source writes end_time, model_id and
metrics (on success; end_time and error_message on failure) AFTER the write
that makes the status terminal, so a poll can observe a terminal status with
end_time still unset, and fields other than status do change after the
terminal status first appears. -/
theorem c5_progress_monotone_status_stable (request : TrainingRequest)
    (tenant_id jobId clock mid : String) (fs : FS) (o : Oracle) :
    (lifecycleTrace request tenant_id jobId clock fs o mid).Pairwise progressLE ∧
    (∀ r ∈ lifecycleTrace request tenant_id jobId clock fs o mid,
      0 ≤ r.progress ∧ r.progress ≤ 1) ∧
    (lifecycleTrace request tenant_id jobId clock fs o mid).Pairwise statusStable ∧
    (lifecycleTrace request tenant_id jobId clock fs o mid).getLast?.isSome = true ∧
    (∀ last, (lifecycleTrace request tenant_id jobId clock fs o mid).getLast? = some last →
      (last.status = "completed" ∨ last.status = "failed") ∧ last.end_time = some clock) := by
  refine ⟨List.chain'_iff_pairwise.mp ?_, ?_, List.chain'_iff_pairwise.mp ?_, ?_, ?_⟩
  · simp only [lifecycleTrace, trainLifecycle, train_model_task]
    repeat' split
    all_goals simp [failWrites, progressLE, List.chain'_cons, initialJob]
    all_goals norm_num
  · simp only [lifecycleTrace, trainLifecycle, train_model_task]
    repeat' split
    all_goals simp [failWrites, List.forall_mem_cons, initialJob]
    all_goals norm_num
  · simp only [lifecycleTrace, trainLifecycle, train_model_task]
    repeat' split
    all_goals simp [failWrites, statusStable, List.chain'_cons, initialJob]
  · simp only [lifecycleTrace, trainLifecycle, train_model_task]
    repeat' split
    all_goals simp [failWrites, List.getLast?_cons_cons, List.getLast?_singleton]
  · simp only [lifecycleTrace, trainLifecycle, train_model_task]
    repeat' split
    all_goals simp [failWrites, List.getLast?_cons_cons, List.getLast?_singleton]

/-- Counterexample to C5 as stated: on a successful concrete run, the state
written at position 9 of the trace already has the terminal status
"completed" while its end_time is still unset, and the very next written
state differs from it (end_time has been filled in) — so after the job
first reaches a terminal state, end_time is not yet set and the record's
fields do change again. -/
theorem c5_claim_counterexample :
    ∃ r r', (lifecycleTrace reqW "tenant_1" "job1" "t0" fsW {} "mid1").get? 9 = some r ∧
      (lifecycleTrace reqW "tenant_1" "job1" "t0" fsW {} "mid1").get? 10 = some r' ∧
      r.status = "completed" ∧ r.end_time = none ∧ r'.end_time = some "t0" ∧ r' ≠ r := by
  refine ⟨_, _, rfl, rfl, rfl, rfl, rfl, ?_⟩
  intro h
  exact Option.noConfusion (congrArg JobRecord.end_time h)

/-- Witness for the amended C5 at a concrete run. -/
theorem c5_witness :
    (∀ r ∈ lifecycleTrace reqW "tenant_1" "job1" "t0" fsW {} "mid1",
      0 ≤ r.progress ∧ r.progress ≤ 1) ∧
    (∀ last, (lifecycleTrace reqW "tenant_1" "job1" "t0" fsW {} "mid1").getLast? = some last →
      (last.status = "completed" ∨ last.status = "failed") ∧ last.end_time = some "t0") :=
  ⟨(c5_progress_monotone_status_stable reqW "tenant_1" "job1" "t0" "mid1" fsW {}).2.1,
   (c5_progress_monotone_status_stable reqW "tenant_1" "job1" "t0" "mid1" fsW {}).2.2.2.2⟩

/-! ## Claim C1 -/

/-- C1: tenant isolation.  For distinct tenants `a` and `b`: a job created
under `a` polled by `b` fails with Forbidden (403) and returns no record;
the artifact paths that `b`'s operations resolve are never `a`'s paths for
the same artifact id (so no operation by `b` can read or remove `a`'s
files, even supplying `a`'s correct id); and when `b` holds no artifact of
its own under that id — which holds for the fresh uuid ids the services
generate — predict, model get, model delete, dataset info, dataset analysis
and dataset delete under `b` with `a`'s id all fail with NotFound and leave
the store unchanged (the delete handlers return their error before any
removal); a request body naming tenant `a` submitted by a caller
authenticated as `b` fails with Forbidden before touching any artifact. -/
theorem c1_tenant_isolation (a b id jobId : String) (hab : b ≠ a)
    (jobs : Jobs) (j : JobRecord) (fs : FS) (data : DataFrame)
    (run : SavedModel → DataFrame → List ℚ)
    (parse : List (List (String × Cell)) → DataFrame)
    (hjob : Jobs.find jobs jobId = some j) (hj : j.tenant_id = a)
    (hm1 : FS.find fs (modelPath b id) = none)
    (hm2 : FS.find fs (modelMetaPath b id) = none)
    (hd1 : FS.find fs (datasetPath b id) = none)
    (hd2 : FS.find fs (datasetMetaPath b id) = none) :
    get_training_status jobs jobId b =
      .error (.forbidden "Access denied to this training job") ∧
    (modelPath b id ≠ modelPath a id ∧ modelMetaPath b id ≠ modelMetaPath a id ∧
      datasetPath b id ≠ datasetPath a id ∧ datasetMetaPath b id ≠ datasetMetaPath a id) ∧
    MLService.predict fs id b data run =
      .error (.notFound ("Model not found: " ++ modelPath b id)) ∧
    getModelHandler fs id b = .error (.notFound "Model not found") ∧
    MLService.delete_model fs id b = .error (.notFound ("Model not found: " ++ id)) ∧
    DataService.get_dataset_info fs id b =
      .error (.notFound ("Dataset not found: " ++ id)) ∧
    (∀ ops, DataService.analyze_dataset fs ⟨b, id, ops⟩ =
      .error (.notFound ("Dataset not found: " ++ datasetPath b id))) ∧
    DataService.delete_dataset fs id b =
      .error (.notFound ("Dataset not found: " ++ id)) ∧
    predictHandler fs ⟨a, id, []⟩ b parse run =
      .error (.forbidden "Tenant ID mismatch") := by
  have hab' : a ≠ b := fun h => hab h.symm
  refine ⟨?_, ⟨fun h => hab (modelPath_tenant_inj h),
    fun h => hab (modelMetaPath_tenant_inj h),
    fun h => hab (datasetPath_tenant_inj h),
    fun h => hab (datasetMetaPath_tenant_inj h)⟩, ?_, ?_, ?_, ?_, ?_, ?_, ?_⟩
  · simp [get_training_status, hjob, hj, hab']
  · simp [MLService.predict, hm1]
  · simp [getModelHandler, MLService.get_model_info, hm2]
  · simp [MLService.delete_model, FS.pathExists, hm1]
  · simp [DataService.get_dataset_info, hd2]
  · intro ops
    simp [DataService.analyze_dataset, hd1]
  · simp [DataService.delete_dataset, FS.pathExists, hd1]
  · simp [predictHandler, hab']

/-- A store holding all four artifact files of tenant_1 under the id
"artifact1". -/
def fsIso : FS :=
  [(modelPath "tenant_1" "artifact1", .joblib ⟨.regression, ["x"]⟩),
   (modelMetaPath "tenant_1" "artifact1", .modelMeta ⟨"artifact1", "tenant_1", "m",
     .regression, none, [], "t0", "t0", [], none, "active", 1, some "d1", [], [], 0, 0⟩),
   (datasetPath "tenant_1" "artifact1", .csv dfW),
   (datasetMetaPath "tenant_1" "artifact1", .datasetMeta ⟨"artifact1", "tenant_1", "d.csv",
     "t0", 3, 2, ["x", "y"], []⟩)]

/-- Witness for C1: tenant_2 querying tenant_1's job id and artifact id. -/
theorem c1_witness :
    get_training_status [("job1", initialJob "job1" "tenant_1" "t0")] "job1" "tenant_2" =
      .error (.forbidden "Access denied to this training job") ∧
    MLService.predict fsIso "artifact1" "tenant_2" dfW (fun _ _ => []) =
      .error (.notFound ("Model not found: " ++ modelPath "tenant_2" "artifact1")) ∧
    DataService.delete_dataset fsIso "artifact1" "tenant_2" =
      .error (.notFound ("Dataset not found: " ++ "artifact1")) := by
  obtain ⟨h1, _, h3, h4, h5, h6, h7, h8, h9⟩ :=
    c1_tenant_isolation "tenant_1" "tenant_2" "artifact1" "job1" (by decide)
      [("job1", initialJob "job1" "tenant_1" "t0")] (initialJob "job1" "tenant_1" "t0")
      fsIso dfW (fun _ _ => []) (fun _ => ⟨[]⟩) rfl rfl rfl rfl rfl rfl
  exact ⟨h1, h3, h8⟩

/-! ## Claim C6 -/

/-- A training request declaring TWO target columns (`y` first, then `z`),
plus a feature `x`. -/
def reqDupTargets : TrainingRequest :=
  ⟨"tenant_1", "m", .regression, some "d1",
    [⟨"y", .numeric, true, true, true, none⟩, ⟨"z", .numeric, true, false, true, none⟩,
     ⟨"x", .numeric, false, true, true, none⟩], [], none, []⟩

/-- Counterexample to C6 as stated: a request whose column list contains
more than one entry with is_target = true is NOT treated as a malformed
schema — column selection succeeds, silently using the first declared
target, and a concrete run of such a request trains to completion with no
validation failure of any kind. -/
theorem c6_claim_counterexample :
    selectColumns reqDupTargets.columns = .ok ("y", ["x"]) ∧
    ∃ last, (lifecycleTrace reqDupTargets "tenant_1" "job1" "t0" fsW {} "mid1").getLast? =
        some last ∧ last.status = "completed" ∧ last.error_message = none :=
  ⟨rfl, _, rfl, rfl, rfl⟩

/-- C6 (amended): a request with more than one is_target column is silently
accepted: the first column with is_target = true becomes the target, the
feature set is computed against that first target's name, and no validation
error arises from the duplication (only a missing target — or a target whose
name is the empty string, which Python truthiness conflates with missing —
or an empty feature set is rejected). -/
theorem c6_duplicate_targets_use_first (cols : List ColumnDefinition)
    (c : ColumnDefinition) (hfind : cols.find? (·.is_target) = some c)
    (hne : c.name ≠ "")
    (hdup : ∃ c2 ∈ cols, c2.is_target = true ∧ c2 ≠ c)
    (hfeat : (cols.filter fun x => x.is_feature && decide (x.name ≠ c.name)) ≠ []) :
    selectColumns cols =
      .ok (c.name,
        (cols.filter fun x => x.is_feature && decide (x.name ≠ c.name)).map (·.name)) := by
  simp [selectColumns, hfind, hne, hfeat]
  obtain ⟨x, hx⟩ := List.exists_mem_of_ne_nil _ hfeat
  rw [List.mem_filter] at hx
  exact ⟨x, hx.1, by simpa using hx.2⟩

/-- Witness for the amended C6 at the concrete duplicate-target request. -/
theorem c6_witness : selectColumns reqDupTargets.columns = .ok ("y", ["x"]) :=
  c6_duplicate_targets_use_first reqDupTargets.columns
    ⟨"y", .numeric, true, true, true, none⟩ rfl (by decide)
    ⟨⟨"z", .numeric, true, false, true, none⟩, by decide, by decide, by decide⟩ (by decide)

/-! ## Claim C7 -/

/-- C7: every successfully uploaded dataset can be deleted through the
dataset_id returned by the upload, and afterwards neither its metadata
(`get_dataset_info`) nor its data (`analyze_dataset`, any operation list)
is retrievable under that id for that tenant: both fail with NotFound. -/
theorem c7_delete_after_upload_leaves_nothing (fs : FS) (filename : String)
    (parsed : DataFrame) (tenant_id dsId clock : String)
    (resp : DatasetUploadResponse) (fs1 : FS)
    (h : DataService.process_uploaded_dataset fs filename parsed tenant_id dsId clock =
      .ok (resp, fs1)) :
    resp.dataset_id = dsId ∧
    ∃ fs2, DataService.delete_dataset fs1 resp.dataset_id tenant_id = .ok (true, fs2) ∧
      DataService.get_dataset_info fs2 resp.dataset_id tenant_id =
        .error (.notFound ("Dataset not found: " ++ resp.dataset_id)) ∧
      ∀ ops, DataService.analyze_dataset fs2 ⟨tenant_id, resp.dataset_id, ops⟩ =
        .error (.notFound ("Dataset not found: " ++
          datasetPath tenant_id resp.dataset_id)) := by
  simp only [DataService.process_uploaded_dataset] at h
  split at h
  case isFalse => exact absurd h (by simp)
  case isTrue hext =>
    have hpair := Except.ok.inj h
    have hid : resp.dataset_id = dsId := by
      have hh := congrArg (fun z : DatasetUploadResponse × FS => z.1.dataset_id) hpair
      simp only at hh
      exact hh.symm
    have hfs1 := congrArg Prod.snd hpair
    simp only at hfs1
    subst hfs1
    have hPM := datasetPath_ne_metaPath tenant_id dsId
    set fsE : FS := FS.insert (FS.insert fs (datasetPath tenant_id dsId) (.csv parsed))
      (datasetMetaPath tenant_id dsId)
      (.datasetMeta ⟨dsId, tenant_id, filename, clock, parsed.nrows, parsed.ncols,
        parsed.colNames, computeColumnStats parsed⟩) with hfsE
    have hfP : FS.find fsE (datasetPath tenant_id dsId) = some (.csv parsed) := by
      rw [hfsE, FS.find_insert, if_neg hPM, FS.find_insert, if_pos rfl]
    have hfM : FS.find fsE (datasetMetaPath tenant_id dsId) =
        some (.datasetMeta ⟨dsId, tenant_id, filename, clock, parsed.nrows, parsed.ncols,
          parsed.colNames, computeColumnStats parsed⟩) := by
      rw [hfsE, FS.find_insert, if_pos rfl]
    refine ⟨hid, FS.erase (FS.erase fsE (datasetPath tenant_id dsId))
      (datasetMetaPath tenant_id dsId), ?_, ?_, ?_⟩
    · rw [hid]
      simp [DataService.delete_dataset, FS.pathExists, hfP, hfM]
    · rw [hid]
      have hf2M : FS.find (FS.erase (FS.erase fsE (datasetPath tenant_id dsId))
          (datasetMetaPath tenant_id dsId)) (datasetMetaPath tenant_id dsId) = none := by
        rw [FS.find_erase, if_pos rfl]
      simp [DataService.get_dataset_info, hf2M]
    · intro ops
      rw [hid]
      have hf2P : FS.find (FS.erase (FS.erase fsE (datasetPath tenant_id dsId))
          (datasetMetaPath tenant_id dsId)) (datasetPath tenant_id dsId) = none := by
        rw [FS.find_erase, if_neg hPM, FS.find_erase, if_pos rfl]
      simp [DataService.analyze_dataset, hf2P]

/-- Witness for C7 at a concrete upload. -/
theorem c7_witness :
    ∃ resp fs1 fs2,
      DataService.process_uploaded_dataset [] "d.csv" dfW "tenant_1" "ds1" "t0" =
        .ok (resp, fs1) ∧
      DataService.delete_dataset fs1 resp.dataset_id "tenant_1" = .ok (true, fs2) ∧
      DataService.get_dataset_info fs2 resp.dataset_id "tenant_1" =
        .error (.notFound ("Dataset not found: " ++ resp.dataset_id)) := by
  obtain ⟨hid, fs2, hdel, hget, hana⟩ :=
    c7_delete_after_upload_leaves_nothing [] "d.csv" dfW "tenant_1" "ds1" "t0"
      ⟨"ds1", "tenant_1", "d.csv", dfW.nrows, dfW.ncols, dfW.headRecords 5,
        computeColumnStats dfW⟩
      (FS.insert (FS.insert [] (datasetPath "tenant_1" "ds1") (.csv dfW))
        (datasetMetaPath "tenant_1" "ds1")
        (.datasetMeta ⟨"ds1", "tenant_1", "d.csv", "t0", dfW.nrows, dfW.ncols, dfW.colNames,
          computeColumnStats dfW⟩))
      rfl
  exact ⟨_, _, fs2, rfl, hdel, hget⟩

/-! ## Claim C8 -/

/-- The synthetic column [1, 2, 3, 4, 100] of the claim. -/
def exValsOut : List (Option ℚ) :=
  [some 1, some 2, some 3, some 4, some 100]

/-- A frame holding the synthetic column as numeric column "c". -/
def dfOutlier : DataFrame :=
  ⟨[("c", .numeric exValsOut)]⟩

theorem outlierIndices_exVals : outlierIndices exValsOut = [4] := by
  have hlo : lowerBound exValsOut = -1 := by
    simp [lowerBound, quantileAB, presentVals, sortedVals, exValsOut,
      List.insertionSort, List.orderedInsert]
    norm_num
  have hhi : upperBound exValsOut = 7 := by
    simp [upperBound, quantileAB, presentVals, sortedVals, exValsOut,
      List.insertionSort, List.orderedInsert]
    norm_num
  rw [outlierIndices, hlo, hhi]
  decide

/-- C8: the outliers analysis returns, for each numeric column with at
least one non-null value, exactly the row indices whose value lies strictly
outside [Q1 - 1.5·IQR, Q3 + 1.5·IQR] (first conjunct: membership in a
column's outlier list holds precisely for positions holding a non-null
value outside the fences; third conjunct: every such non-empty list appears
in the result); columns without such indices are omitted (second conjunct:
the result contains no empty index list); and on the column [1,2,3,4,100]
exactly the index of the value 100 (namely 4) is flagged. -/
theorem c8_outliers_iqr :
    (∀ vals i, i ∈ outlierIndices vals ↔
      ∃ x, vals.get? i = some (some x) ∧
        (x < lowerBound vals ∨ x > upperBound vals)) ∧
    (∀ df : DataFrame, ∀ p ∈ outliersOf df, p.2 ≠ []) ∧
    (∀ df : DataFrame, ∀ nm vals, (nm, ColData.numeric vals) ∈ df.columns →
      presentVals vals ≠ [] → outlierIndices vals ≠ [] →
      (nm, outlierIndices vals) ∈ outliersOf df) ∧
    outliersOf dfOutlier = [("c", [4])] := by
  refine ⟨?_, ?_, ?_, ?_⟩
  · intro vals i
    constructor
    · intro hi
      simp only [outlierIndices, outlierIndicesWith, List.mem_filter, List.mem_range] at hi
      obtain ⟨hlen, hp⟩ := hi
      cases hget : vals.get? i with
      | none => rw [hget] at hp; simp at hp
      | some o =>
        cases o with
        | none => rw [hget] at hp; simp at hp
        | some x =>
          rw [hget] at hp
          exact ⟨x, rfl, of_decide_eq_true hp⟩
    · rintro ⟨x, hget, hx⟩
      have hlen : i < vals.length := (List.get?_eq_some.mp hget).1
      simp only [outlierIndices, outlierIndicesWith, List.mem_filter, List.mem_range]
      refine ⟨hlen, ?_⟩
      rw [hget]
      exact decide_eq_true hx
  · intro df p hp
    simp only [outliersOf, List.mem_filterMap] at hp
    obtain ⟨⟨nm, vals⟩, hmem, hf⟩ := hp
    simp only at hf
    split at hf
    · exact absurd hf (by simp)
    · split at hf
      case isTrue => exact absurd hf (by simp)
      case isFalse hempty =>
        rw [Option.some.injEq] at hf
        subst hf
        simpa using hempty
  · intro df nm vals hmem hpres hne
    have hnum : (nm, vals) ∈ df.numericCols := by
      simp only [DataFrame.numericCols, List.mem_filterMap]
      exact ⟨(nm, ColData.numeric vals), hmem, rfl⟩
    simp only [outliersOf, List.mem_filterMap]
    refine ⟨(nm, vals), hnum, ?_⟩
    simp [hpres, hne]
  · have hp : presentVals exValsOut ≠ [] := by decide
    have hnc : dfOutlier.numericCols = [("c", exValsOut)] := rfl
    rw [outliersOf, hnc]
    simp [outlierIndices_exVals, hp, List.filterMap_cons]

/-- Witness for C8: the characterization applied at position 4 of the
synthetic column, and the synthetic column's non-empty outlier list is
present in the analysis result. -/
theorem c8_witness :
    (4 ∈ outlierIndices exValsOut ↔
      ∃ x, exValsOut.get? 4 = some (some x) ∧
        (x < lowerBound exValsOut ∨ x > upperBound exValsOut)) ∧
    ("c", outlierIndices exValsOut) ∈ outliersOf dfOutlier := by
  refine ⟨c8_outliers_iqr.1 exValsOut 4, ?_⟩
  refine c8_outliers_iqr.2.2.1 dfOutlier "c" exValsOut (by simp [dfOutlier]) (by decide) ?_
  simp [outlierIndices_exVals]

/-! ## Claim C9 -/

theorem isSome_ite_contains {α : Type} (ops : List String) (s : String) (x : α) :
    (if ops.contains s then some x else none).isSome = true ↔ s ∈ ops := by
  by_cases hc : ops.contains s = true
  · simp [hc, List.elem_iff.mp hc]
  · simp [hc]

/-- C9: when the dataset exists for the tenant, analysis succeeds for ANY
requested operation list — operation names outside the known set are
silently ignored without error — and the result populates exactly the
fields named by the requested operations among summary, correlation,
missing_values, outliers and distributions; the custom field is never
populated.  In particular, an empty operation list yields a result with
every field absent, and the list ["correlation"] populates only the
correlation field. -/
theorem c9_analysis_populates_exactly_requested (fs : FS) (req : DatasetAnalysisRequest)
    (df : DataFrame)
    (h : FS.find fs (datasetPath req.tenant_id req.dataset_id) = some (.csv df)) :
    ∃ r, DataService.analyze_dataset fs req = .ok r ∧
      (r.summary.isSome = true ↔ "summary" ∈ req.operations) ∧
      (r.correlation.isSome = true ↔ "correlation" ∈ req.operations) ∧
      (r.missing_values.isSome = true ↔ "missing_values" ∈ req.operations) ∧
      (r.outliers.isSome = true ↔ "outliers" ∈ req.operations) ∧
      (r.distributions.isSome = true ↔ "distributions" ∈ req.operations) ∧
      r.custom = none := by
  simp only [DataService.analyze_dataset, h]
  exact ⟨_, rfl, isSome_ite_contains _ _ _, isSome_ite_contains _ _ _,
    isSome_ite_contains _ _ _, isSome_ite_contains _ _ _, isSome_ite_contains _ _ _, rfl⟩

/-- Witness for C9: on a concrete store, the request for
["correlation", "bogus"] succeeds (the unknown name "bogus" is ignored) and
populates the correlation field but not the summary field. -/
theorem c9_witness :
    ∃ r, DataService.analyze_dataset fsW ⟨"tenant_1", "d1", ["correlation", "bogus"]⟩ =
        .ok r ∧
      r.correlation.isSome = true ∧ r.summary.isSome = false ∧ r.custom = none := by
  obtain ⟨r, hok, hs, hc, _hm, _ho, _hd, hcu⟩ :=
    c9_analysis_populates_exactly_requested fsW ⟨"tenant_1", "d1", ["correlation", "bogus"]⟩
      dfW rfl
  refine ⟨r, hok, hc.mpr (by decide), ?_, hcu⟩
  cases hval : r.summary.isSome
  · rfl
  · exact absurd (hs.mp hval) (by decide)

/-- Witness for C10 at a concrete request, store and oracle. -/
theorem c10_witness :
    (∃ jobs2, train_model reqW "tenant_1" "job1" "t0" [] =
        .ok (⟨"pending", "tenant_1", "queued", "job1", "Training job queued successfully"⟩,
          jobs2) ∧
      Jobs.find jobs2 "job1" = some (initialJob "job1" "tenant_1" "t0")) ∧
    ((initialJob "job1" "tenant_1" "t0").model_id.isSome = true →
      (initialJob "job1" "tenant_1" "t0").status = "completed") :=
  ⟨(c10_response_is_pending_placeholder reqW "tenant_1" "job1" "t0" "mid1" [] fsW {} rfl).1,
   (c10_response_is_pending_placeholder reqW "tenant_1" "job1" "t0" "mid1" [] fsW {} rfl).2
     (initialJob "job1" "tenant_1" "t0") (List.mem_cons_self _ _)⟩

end MLServer
